import Mathlib

/-!
Shallow embedding of the mnq-bot trading client (Python) in Lean 4.

Each definition mirrors one Python function of the repository:
- `src/strategies/momentum_30pt.py` : `Candle`, `Momentum30pt.on_candle_close`,
  `Momentum30pt.calculate_target`
- `src/core/risk_manager.py` : `RiskConfig`, `RiskManager.check_entry`,
  `update_pnl`, `record_trade`, `reset_day`, `calculate_stop`, `calculate_target`
- `src/core/order_manager.py` : `OrderManager.place_order` (request body),
  `get_orders`, `flatten_all`
- `src/core/market_data.py` : `Position`
- `src/main.py` : `MNQTradingBot._execute_signal`
- `src/utils/auth_manager.py` : `TradovateAuth.renew_token`, `auto_renew`

Python floats are modelled as rationals (ℚ); none of the verified properties
depends on floating-point rounding. Python truthiness of an optional number
(`if price:`) is `pyNumTruthy`; of an optional string, `pyStrTruthy`.
Network responses are passed in as explicit values, and the result of a
nested `authenticate()` call is passed in as an opaque parameter.
-/

/-- Python truthiness of an optional float: `None` and `0.0` are falsy. -/
def pyNumTruthy : Option ℚ → Bool
  | none => false
  | some x => x != 0

/-- Python truthiness of an optional string: `None` and `""` are falsy. -/
def pyStrTruthy : Option String → Bool
  | none => false
  | some s => s != ""

/-! ## strategies/momentum_30pt.py -/

/-- 5-minute candle data (`Candle` dataclass); timestamp is a time index. -/
structure Candle where
  «open» : ℚ
  high : ℚ
  low : ℚ
  close : ℚ
  volume : ℤ
  timestamp : ℤ
deriving DecidableEq, Repr

/-- The signal dict produced by `Momentum30pt.on_candle_close` (the two candle
references of the Python dict are kept as the candles themselves). -/
structure MomentumSignal where
  direction : String
  entry_price : ℚ
  stop_price : ℚ
  breakout_candle : Candle
  prior_candle : Candle
  move_points : ℚ
  risk_points : ℚ
  timestamp : ℤ
deriving DecidableEq, Repr

namespace Momentum30pt

/-- `self.trigger_threshold = 30  # points`, set in `__init__`, never mutated. -/
def trigger_threshold : ℚ := 30

/-- `Momentum30pt.on_candle_close(candle)`: appends the candle to history;
with fewer than two candles returns no signal; otherwise compares the close
with the prior close against the threshold. Returns (new history, signal). -/
def on_candle_close (candles : List Candle) (candle : Candle) :
    List Candle × Option MomentumSignal :=
  let candles := candles ++ [candle]
  if candles.length < 2 then (candles, none)
  else
    let breakout_candle := candle
    let prior_candle := candles.getD (candles.length - 2) candle
    let move := breakout_candle.close - prior_candle.close
    if |move| ≥ trigger_threshold then
      let direction := if move > 0 then "Buy" else "Sell"
      let stop := if direction = "Buy" then breakout_candle.low else breakout_candle.high
      let signal : MomentumSignal :=
        { direction := direction
          entry_price := breakout_candle.close
          stop_price := stop
          breakout_candle := breakout_candle
          prior_candle := prior_candle
          move_points := |move|
          risk_points := |breakout_candle.close - stop|
          timestamp := breakout_candle.timestamp }
      (candles, some signal)
    else (candles, none)

/-- `Momentum30pt.calculate_target(entry, stop, direction)`: 1R target. -/
def calculate_target (entry stop : ℚ) (direction : String) : ℚ :=
  let risk := |entry - stop|
  if direction = "Buy" then entry + risk else entry - risk

end Momentum30pt

/-! ## core/risk_manager.py -/

/-- `RiskConfig` dataclass with its Python default field values. -/
structure RiskConfig where
  max_daily_loss : ℚ := -500
  max_position_size : ℤ := 2
  max_trades_per_day : ℤ := 10
  position_size_pct : ℚ := 2 / 100
  account_balance : ℚ := 10000
  r_per_trade : ℚ := 100
deriving DecidableEq, Repr

/-- Mutable session state of `RiskManager`; `daily_start` is the calendar-day
index of the stored `datetime` (only its `.date()` is ever compared). -/
structure RiskState where
  config : RiskConfig
  daily_pnl : ℚ
  trades_today : ℤ
  daily_start : ℤ
  kill_switch_triggered : Bool
deriving DecidableEq, Repr

/-- The rejection reason codes of `RiskManager.check_entry` (the Python
strings interpolate state into a message; the code identifies the branch). -/
inductive Reason where
  | KILL_SWITCH
  | DAILY_LOSS
  | MAX_TRADES
  | MAX_SIZE
  | POOR_RR
  | OK
deriving DecidableEq, Repr

namespace RiskManager

/-- `RiskManager.__init__`: fresh session state for a given config and day. -/
def init (config : RiskConfig) (today : ℤ) : RiskState :=
  { config := config
    daily_pnl := 0
    trades_today := 0
    daily_start := today
    kill_switch_triggered := false }

/-- `RiskManager.check_entry(direction, size, entry_price, stop_price)`:
returns the updated state (the daily-loss branch sets the kill switch) and
`(allowed, reason)`. The `direction` argument is accepted and unused, as in
the Python code. -/
def check_entry (st : RiskState) (_direction : String) (size : ℤ)
    (entry_price stop_price : ℚ) : RiskState × Bool × Reason :=
  if st.kill_switch_triggered then
    (st, false, .KILL_SWITCH)
  else if st.daily_pnl ≤ st.config.max_daily_loss then
    ({ st with kill_switch_triggered := true }, false, .DAILY_LOSS)
  else if st.trades_today ≥ st.config.max_trades_per_day then
    (st, false, .MAX_TRADES)
  else if size > st.config.max_position_size then
    (st, false, .MAX_SIZE)
  else
    let risk := |entry_price - stop_price|
    let reward_per_contract := risk * (50 / 100)
    if reward_per_contract < st.config.r_per_trade then
      (st, false, .POOR_RR)
    else
      (st, true, .OK)

/-- `RiskManager.update_pnl(realized_pnl)`: accumulates daily P&L and trips
the kill switch when the daily-loss limit is reached. -/
def update_pnl (st : RiskState) (realized_pnl : ℚ) : RiskState :=
  let st := { st with daily_pnl := st.daily_pnl + realized_pnl }
  if st.daily_pnl ≤ st.config.max_daily_loss then
    { st with kill_switch_triggered := true }
  else st

/-- `RiskManager.record_trade()`: increments the daily trade counter. -/
def record_trade (st : RiskState) : RiskState :=
  { st with trades_today := st.trades_today + 1 }

/-- `RiskManager.reset_day()`: clears the counters and the kill switch only
when the current date has advanced past the stored day boundary; `today` is
`datetime.now().date()` as a day index. -/
def reset_day (st : RiskState) (today : ℤ) : RiskState :=
  if today > st.daily_start then
    { st with daily_pnl := 0, trades_today := 0, daily_start := today,
              kill_switch_triggered := false }
  else st

/-- `RiskManager.calculate_stop(entry, direction, atr)`. The ATR branch is the
Python idiom `entry - (direction == "Buy" and atr * 2 or -atr * 2)`: the
`and`/`or` chain yields `atr * 2` when the direction is Buy and `atr * 2` is
truthy, else `-atr * 2`. -/
def calculate_stop (entry : ℚ) (direction : String) (atr : Option ℚ) : ℚ :=
  let default_stop : ℚ := 30
  if pyNumTruthy atr then
    let a := atr.getD 0
    entry - (if direction = "Buy" ∧ a * 2 ≠ 0 then a * 2 else -(a * 2))
  else
    if direction = "Buy" then entry - default_stop
    else entry + default_stop

/-- `RiskManager.calculate_target(entry, direction, stop, risk)`: when `risk`
is `None` it defaults to `|entry - stop|`; the target is placed at twice the
risk (`target_risk = risk * 2`). -/
def calculate_target (entry : ℚ) (direction : String) (stop : ℚ)
    (risk : Option ℚ) : ℚ :=
  let risk := match risk with
    | none => |entry - stop|
    | some r => r
  let target_risk := risk * 2
  if direction = "Buy" then entry + target_risk else entry - target_risk

end RiskManager

/-! ## core/order_manager.py -/

/-- The JSON body assembled by `OrderManager.place_order`; `price` and
`stopPrice` are `none` exactly when the corresponding key is absent. -/
structure PlaceOrderBody where
  accountSpec : String
  accountId : ℤ
  action : String
  symbol : String
  orderQty : ℤ
  orderType : String
  isAutomated : Bool
  timeInForce : String
  price : Option ℚ
  stopPrice : Option ℚ
deriving DecidableEq, Repr

namespace OrderManager

/-- `OrderManager.place_order`: the request body it sends. The mandatory keys
are always present; `price` is added only when `price` is truthy and the
order type is Limit or StopLimit, `stopPrice` only when `stop_price` is
truthy and the order type is Stop or StopLimit. -/
def place_order_body (accountSpec : String) (accountId : ℤ)
    (symbol action : String) (qty : ℤ) (order_type : String)
    (price stop_price : Option ℚ) (time_in_force : String) : PlaceOrderBody :=
  { accountSpec := accountSpec
    accountId := accountId
    action := action
    symbol := symbol
    orderQty := qty
    orderType := order_type
    isAutomated := true
    timeInForce := time_in_force
    price :=
      if pyNumTruthy price ∧ (order_type = "Limit" ∨ order_type = "StopLimit")
      then price else none
    stopPrice :=
      if pyNumTruthy stop_price ∧ (order_type = "Stop" ∨ order_type = "StopLimit")
      then stop_price else none }

/-- One record of the broker's `/order/list` response (the fields
`flatten_all` and the spec look at). -/
structure BrokerOrder where
  orderId : ℤ
  status : String
deriving DecidableEq, Repr

/-- `OrderManager.get_orders(status)`: performs `GET /order/list` and returns
the whole response. The `status` argument is accepted and never used: the
response is returned without any filtering. -/
def get_orders (_status : String) (broker_response : List BrokerOrder) :
    List BrokerOrder :=
  broker_response

/-- `OrderManager.flatten_all()`: calls `get_orders("Working")` and requests a
cancel for each returned order; the result lists the orderIds sent to
`cancel_order`, in order. -/
def flatten_all (broker_response : List BrokerOrder) : List ℤ :=
  (get_orders "Working" broker_response).map (fun o => o.orderId)

end OrderManager

/-! ## core/market_data.py -/

/-- `Position` dataclass of the market-data client. -/
structure Position where
  symbol : String
  qty : ℤ
  avg_entry : ℚ
  unrealized_pnl : ℚ
  timestamp : ℤ
deriving DecidableEq, Repr

/-! ## main.py -/

namespace MNQTradingBot

/-- Every instance attribute the Python class `MNQTradingBot` ever assigns
(`self.x = ...` in `__init__`, `start`, `_on_quote`, `_candle_builder`,
`_paper_trade`, `_live_trade`, `stop`). Reading any other attribute raises
`AttributeError`. -/
def assigned_attrs : List String :=
  ["symbol", "paper_mode", "auth", "orders", "market_data", "risk",
   "strategy", "running", "current_candle", "last_signal", "trades_today",
   "daily_pnl"]

/-- Outcome of `_execute_signal` when no exception is raised. -/
inductive ExecOutcome where
  | guardrailSkip
  | riskBlocked (reason : Reason)
  | proceed (target : ℚ)
deriving DecidableEq, Repr

/-- `MNQTradingBot._execute_signal(signal)`: computes the target, then the
no-double-position guardrail reads `self.position` — an attribute lookup on
the instance — then the risk check, then paper/live execution (abstracted as
`proceed`). `tracked_pos` is the value `self.position` would hold if the
attribute existed; the lookup itself consults `assigned_attrs` and raises
`AttributeError` when the attribute was never assigned. Returns the updated
risk state with the outcome, or the exception message. -/
def execute_signal (attrs : List String) (tracked_pos : Option Position)
    (risk_st : RiskState) (sig : MomentumSignal) :
    Except String (RiskState × ExecOutcome) :=
  let direction := sig.direction
  let entry := sig.entry_price
  let stop := sig.stop_price
  let target := Momentum30pt.calculate_target entry stop direction
  if "position" ∈ attrs then
    let guard := match tracked_pos with
      | none => false
      | some p => p.qty ≠ 0
    if guard then
      .ok (risk_st, .guardrailSkip)
    else
      let res := RiskManager.check_entry risk_st direction 1 entry stop
      if res.2.1 then .ok (res.1, .proceed target)
      else .ok (res.1, .riskBlocked res.2.2)
  else
    .error "AttributeError: MNQTradingBot object has no attribute position"

end MNQTradingBot

/-! ## utils/auth_manager.py -/

/-- Token-bearing state of `TradovateAuth`; times are minutes. The renewal
threshold is `timedelta(minutes=75)`, set in `__init__` and never mutated. -/
structure AuthState where
  access_token : Option String
  token_created : Option ℚ
deriving DecidableEq, Repr

namespace TradovateAuth

/-- `self.renew_threshold = timedelta(minutes=75)`. -/
def renew_threshold : ℚ := 75

/-- What one HTTP `POST /auth/renewAccessToken` attempt did. -/
inductive RenewResponse where
  | success (accessToken : Option String)
  | errStatus (status : ℤ)
  | raised
deriving DecidableEq, Repr

/-- `TradovateAuth.renew_token()`: with no (truthy) access token, or on a
non-200 status, or on an exception, it returns `await self.authenticate()`,
whose result (return value and resulting state) is the opaque
`auth_result`. On a 200 response it stores the returned token and stamps
`token_created := now`, returning `True`. -/
def renew_token (st : AuthState) (resp : RenewResponse) (now : ℚ)
    (auth_result : Bool × AuthState) : Bool × AuthState :=
  if ¬ pyStrTruthy st.access_token then auth_result
  else
    match resp with
    | .success tok => (true, { access_token := tok, token_created := some now })
    | .errStatus _ => auth_result
    | .raised => auth_result

/-- One iteration of the `TradovateAuth.auto_renew()` loop body, after the
sleep: decides whether `renew_token` is called. With `token_created` unset it
skips; otherwise it renews iff `now - token_created ≥ renew_threshold`. -/
def auto_renew_attempts (st : AuthState) (now : ℚ) : Bool :=
  match st.token_created with
  | none => false
  | some created => now - created ≥ renew_threshold

end TradovateAuth

/-! ## Theorems -/

/-- Helper: in `h0 ++ [prior, c]`, the penultimate element (Python
`candles[-2]`) is `prior`. -/
lemma getD_penultimate (h0 : List Candle) (prior c d : Candle) :
    (h0 ++ [prior, c]).getD h0.length d = prior := by
  unfold List.getD
  rw [List.get?_append_right (le_refl h0.length)]
  simp

/-- Helper: the full behavior of `on_candle_close` once the history already
holds at least one candle. -/
lemma on_candle_close_snoc (h0 : List Candle) (prior c : Candle) :
    Momentum30pt.on_candle_close (h0 ++ [prior]) c =
      ((h0 ++ [prior]) ++ [c],
        if |c.close - prior.close| ≥ Momentum30pt.trigger_threshold then
          some { direction := if c.close - prior.close > 0 then "Buy" else "Sell"
                 entry_price := c.close
                 stop_price :=
                   if c.close - prior.close > 0 then c.low else c.high
                 breakout_candle := c
                 prior_candle := prior
                 move_points := |c.close - prior.close|
                 risk_points :=
                   |c.close -
                     (if c.close - prior.close > 0 then c.low else c.high)|
                 timestamp := c.timestamp }
        else none) := by
  have hassoc : (h0 ++ [prior]) ++ [c] = h0 ++ [prior, c] := by simp
  have hlen : ¬ ((h0 ++ [prior]) ++ [c]).length < 2 := by
    simp [List.length_append]
  have hpen : ((h0 ++ [prior]) ++ [c]).getD (((h0 ++ [prior]) ++ [c]).length - 2) c
      = prior := by
    rw [hassoc]
    have h2 : (h0 ++ [prior, c]).length - 2 = h0.length := by
      simp [List.length_append]
    rw [h2]
    exact getD_penultimate h0 prior c c
  unfold Momentum30pt.on_candle_close
  rw [if_neg hlen, hpen]
  by_cases hth : |c.close - prior.close| ≥ Momentum30pt.trigger_threshold
  · rw [if_pos hth]
    by_cases hm : c.close - prior.close > 0
    · simp only [if_pos hm]
      simp [hth]
    · simp only [if_neg hm]
      simp [hth]
  · rw [if_neg hth, if_neg hth]

/-- C1: for every candle history fed to `on_candle_close`, with fewer than two
candles in history (after the append) no signal is emitted; with at least
two, letting `move = current.close - previous.close`, a signal is emitted iff
`|move| ≥ 30`, with direction Buy iff `move > 0` else Sell, entry price the
current close, stop price the current low for Buy and the current high for
Sell, and risk `|entry - stop|`. -/
theorem C1_on_candle_close_spec (hist : List Candle) (c : Candle) :
    (hist = [] → (Momentum30pt.on_candle_close hist c).2 = none) ∧
    (∀ h0 prior, hist = h0 ++ [prior] →
      ((Momentum30pt.on_candle_close hist c).2 ≠ none ↔
        |c.close - prior.close| ≥ 30) ∧
      (|c.close - prior.close| ≥ 30 →
        (Momentum30pt.on_candle_close hist c).2 =
          some { direction := if c.close - prior.close > 0 then "Buy" else "Sell"
                 entry_price := c.close
                 stop_price :=
                   if c.close - prior.close > 0 then c.low else c.high
                 breakout_candle := c
                 prior_candle := prior
                 move_points := |c.close - prior.close|
                 risk_points :=
                   |c.close -
                     (if c.close - prior.close > 0 then c.low else c.high)|
                 timestamp := c.timestamp })) := by
  constructor
  · intro h
    subst h
    rfl
  · intro h0 prior hh
    subst hh
    rw [on_candle_close_snoc]
    constructor
    · by_cases hth : |c.close - prior.close| ≥ Momentum30pt.trigger_threshold
      · simp only [if_pos hth]
        exact ⟨fun _ => hth, fun _ => by simp⟩
      · simp only [if_neg hth]
        exact ⟨fun h => absurd rfl h, fun h => absurd h hth⟩
    · intro hth
      simp only [if_pos (show |c.close - prior.close| ≥
        Momentum30pt.trigger_threshold from hth)]

/-- C1 witness: the spec scenario — closes 20510 then 20545, breakout low
20505 — yields a Buy signal with entry 20545, stop 20505, risk 40. -/
theorem C1_on_candle_close_spec_witness :
    (Momentum30pt.on_candle_close [⟨20500, 20520, 20490, 20510, 1000, 0⟩]
        ⟨20535, 20545, 20505, 20545, 1100, 10⟩).2 =
      some { direction := "Buy"
             entry_price := 20545
             stop_price := 20505
             breakout_candle := ⟨20535, 20545, 20505, 20545, 1100, 10⟩
             prior_candle := ⟨20500, 20520, 20490, 20510, 1000, 0⟩
             move_points := 35
             risk_points := 40
             timestamp := 10 } := by
  have h := ((C1_on_candle_close_spec [⟨20500, 20520, 20490, 20510, 1000, 0⟩]
      ⟨20535, 20545, 20505, 20545, 1100, 10⟩).2 []
      ⟨20500, 20520, 20490, 20510, 1000, 0⟩ rfl).2 (by norm_num)
  rw [h]
  norm_num

/-- C3: `check_entry` evaluates its conditions in the fixed order kill-switch,
daily-loss (which also sets the kill switch), max-trades, max-size, then
reward-per-contract, returning `(false, reason)` at the first failing
condition and `(true, OK)` otherwise; and from a fresh state with
`max_position_size = 2` (and a negative loss limit and a positive trade
limit, as in the defaults), `size = 3` yields `(false, MAX_SIZE)` for every
direction, entry and stop. -/
theorem C3_check_entry_fixed_order (st : RiskState) (dir : String) (size : ℤ)
    (e s : ℚ) :
    (st.kill_switch_triggered = true →
      RiskManager.check_entry st dir size e s = (st, false, .KILL_SWITCH)) ∧
    (st.kill_switch_triggered = false →
      st.daily_pnl ≤ st.config.max_daily_loss →
      RiskManager.check_entry st dir size e s =
        ({ st with kill_switch_triggered := true }, false, .DAILY_LOSS)) ∧
    (st.kill_switch_triggered = false →
      st.config.max_daily_loss < st.daily_pnl →
      st.trades_today ≥ st.config.max_trades_per_day →
      RiskManager.check_entry st dir size e s = (st, false, .MAX_TRADES)) ∧
    (st.kill_switch_triggered = false →
      st.config.max_daily_loss < st.daily_pnl →
      st.trades_today < st.config.max_trades_per_day →
      size > st.config.max_position_size →
      RiskManager.check_entry st dir size e s = (st, false, .MAX_SIZE)) ∧
    (st.kill_switch_triggered = false →
      st.config.max_daily_loss < st.daily_pnl →
      st.trades_today < st.config.max_trades_per_day →
      size ≤ st.config.max_position_size →
      |e - s| * (50 / 100) < st.config.r_per_trade →
      RiskManager.check_entry st dir size e s = (st, false, .POOR_RR)) ∧
    (st.kill_switch_triggered = false →
      st.config.max_daily_loss < st.daily_pnl →
      st.trades_today < st.config.max_trades_per_day →
      size ≤ st.config.max_position_size →
      st.config.r_per_trade ≤ |e - s| * (50 / 100) →
      RiskManager.check_entry st dir size e s = (st, true, .OK)) ∧
    (∀ cfg : RiskConfig, cfg.max_position_size = 2 →
      cfg.max_daily_loss < 0 → cfg.max_trades_per_day > 0 →
      ∀ d0 : ℤ,
      RiskManager.check_entry (RiskManager.init cfg d0) dir 3 e s =
        (RiskManager.init cfg d0, false, .MAX_SIZE)) := by
  refine ⟨?_, ?_, ?_, ?_, ?_, ?_, ?_⟩
  · intro hk
    simp [RiskManager.check_entry, hk]
  · intro hk hd
    simp [RiskManager.check_entry, hk, hd]
  · intro hk hd ht
    simp [RiskManager.check_entry, hk, not_le.mpr hd, ht]
  · intro hk hd ht hs
    simp [RiskManager.check_entry, hk, not_le.mpr hd, not_le.mpr ht, hs]
  · intro hk hd ht hs hr
    simp [RiskManager.check_entry, hk, not_le.mpr hd, not_le.mpr ht,
      not_lt.mpr hs, hr]
  · intro hk hd ht hs hr
    simp [RiskManager.check_entry, hk, not_le.mpr hd, not_le.mpr ht,
      not_lt.mpr hs, not_lt.mpr hr]
  · intro cfg hmax hneg hpos d0
    simp [RiskManager.check_entry, RiskManager.init, hmax, not_le.mpr hneg]
    omega

/-- C3 witness: with the default config (`max_position_size = 2`,
`max_daily_loss = -500`, `max_trades_per_day = 10`), a fresh state rejects a
size-3 entry with MAX_SIZE. -/
theorem C3_check_entry_fixed_order_witness :
    RiskManager.check_entry (RiskManager.init {} 0) "Buy" 3 20545 20505 =
      (RiskManager.init {} 0, false, .MAX_SIZE) :=
  (C3_check_entry_fixed_order (RiskManager.init {} 0) "Buy" 3 20545 20505).2.2.2.2.2.2
    {} rfl (by norm_num) (by norm_num) 0

/-- C4: once the kill switch is set it stays set under `check_entry`,
`update_pnl` and `record_trade`, and is cleared only by `reset_day` on a
calendar-day advance (a same-day `reset_day` changes nothing); `check_entry`
never allows an entry while the kill switch is set or while
`daily_pnl ≤ max_daily_loss`; and with `max_daily_loss = -300`, two
`update_pnl (-150)` calls from a fresh state reach `daily_pnl = -300`, trip
the kill switch, and every subsequent `check_entry` returns
`(false, KILL_SWITCH)` with the state unchanged. -/
theorem C4_kill_switch_invariant (st : RiskState) :
    (∀ dir size e s, st.kill_switch_triggered = true →
      ((RiskManager.check_entry st dir size e s).1).kill_switch_triggered = true) ∧
    (∀ p, st.kill_switch_triggered = true →
      (RiskManager.update_pnl st p).kill_switch_triggered = true) ∧
    (st.kill_switch_triggered = true →
      (RiskManager.record_trade st).kill_switch_triggered = true) ∧
    (∀ d, d ≤ st.daily_start → RiskManager.reset_day st d = st) ∧
    (∀ dir size e s,
      (RiskManager.check_entry st dir size e s).2.1 = true →
      st.kill_switch_triggered = false ∧
      st.config.max_daily_loss < st.daily_pnl) ∧
    (∀ d0 : ℤ,
      (RiskManager.update_pnl
        (RiskManager.update_pnl
          (RiskManager.init { max_daily_loss := -300 } d0) (-150))
        (-150)).daily_pnl = -300 ∧
      (RiskManager.update_pnl
        (RiskManager.update_pnl
          (RiskManager.init { max_daily_loss := -300 } d0) (-150))
        (-150)).kill_switch_triggered = true ∧
      ∀ dir size e s,
        RiskManager.check_entry
          (RiskManager.update_pnl
            (RiskManager.update_pnl
              (RiskManager.init { max_daily_loss := -300 } d0) (-150))
            (-150)) dir size e s =
          (RiskManager.update_pnl
            (RiskManager.update_pnl
              (RiskManager.init { max_daily_loss := -300 } d0) (-150))
            (-150), false, .KILL_SWITCH)) := by
  refine ⟨?_, ?_, ?_, ?_, ?_, ?_⟩
  · intro dir size e s hk
    simp [RiskManager.check_entry, hk]
  · intro p hk
    unfold RiskManager.update_pnl
    dsimp only
    split <;> simp [hk]
  · intro hk
    simp [RiskManager.record_trade, hk]
  · intro d hd
    simp [RiskManager.reset_day, not_lt.mpr hd]
  · intro dir size e s hall
    unfold RiskManager.check_entry at hall
    split_ifs at hall with hk hd ht hs
    · exact ⟨by simpa using hk, by simpa using not_le.mp hd⟩
  · intro d0
    have hst : RiskManager.update_pnl
        (RiskManager.update_pnl
          (RiskManager.init { max_daily_loss := -300 } d0) (-150)) (-150) =
        { config := { max_daily_loss := -300 }
          daily_pnl := -300
          trades_today := 0
          daily_start := d0
          kill_switch_triggered := true } := by
      simp [RiskManager.update_pnl, RiskManager.init]
      norm_num
    rw [hst]
    refine ⟨rfl, rfl, ?_⟩
    intro dir size e s
    simp [RiskManager.check_entry]

/-- C4 witness: at a concrete state with the kill switch set, `check_entry`
keeps it set and allows nothing, and a same-day `reset_day` is the identity;
the -300 scenario runs from day 0. -/
theorem C4_kill_switch_invariant_witness :
    ((RiskManager.check_entry
      { config := {}, daily_pnl := 5, trades_today := 1, daily_start := 0,
        kill_switch_triggered := true } "Buy" 1 20545 20505).1).kill_switch_triggered
      = true ∧
    RiskManager.reset_day
      { config := {}, daily_pnl := 5, trades_today := 1, daily_start := 0,
        kill_switch_triggered := true } 0 =
      { config := {}, daily_pnl := 5, trades_today := 1, daily_start := 0,
        kill_switch_triggered := true } ∧
    (RiskManager.update_pnl
      (RiskManager.update_pnl
        (RiskManager.init { max_daily_loss := -300 } 0) (-150))
      (-150)).kill_switch_triggered = true :=
  ⟨(C4_kill_switch_invariant _).1 "Buy" 1 20545 20505 rfl,
   (C4_kill_switch_invariant _).2.2.2.1 0 (by norm_num),
   ((C4_kill_switch_invariant
      (RiskManager.init { max_daily_loss := -300 } 0)).2.2.2.2.2 0).2.1⟩

/-- C7: a second `reset_day` within the same calendar day is a no-op; the
reset happens only when the current date has advanced past the stored
boundary, and then it clears `daily_pnl`, `trades_today` and the kill switch
and moves the boundary, exactly once per transition. -/
theorem C7_reset_day_once (st : RiskState) (d : ℤ) :
    (d ≤ st.daily_start → RiskManager.reset_day st d = st) ∧
    (RiskManager.reset_day (RiskManager.reset_day st d) d =
      RiskManager.reset_day st d) ∧
    (d > st.daily_start →
      RiskManager.reset_day st d =
        { config := st.config, daily_pnl := 0, trades_today := 0,
          daily_start := d, kill_switch_triggered := false }) := by
  refine ⟨?_, ?_, ?_⟩
  · intro hd
    simp [RiskManager.reset_day, not_lt.mpr hd]
  · by_cases hd : d > st.daily_start
    · have hin : RiskManager.reset_day st d =
          { st with daily_pnl := 0, trades_today := 0, daily_start := d,
                    kill_switch_triggered := false } := by
        simp [RiskManager.reset_day, hd]
      rw [hin]
      simp [RiskManager.reset_day]
    · have hin : RiskManager.reset_day st d = st := by
        simp [RiskManager.reset_day, hd]
      rw [hin]
      exact hin
  · intro hd
    simp [RiskManager.reset_day, hd]

/-- C7 witness: on a state with boundary day 3, `reset_day` at day 3 is the
identity, and after a reset at day 4 a second `reset_day` at day 4 changes
nothing. -/
theorem C7_reset_day_once_witness :
    RiskManager.reset_day
      { config := {}, daily_pnl := -120, trades_today := 4, daily_start := 3,
        kill_switch_triggered := true } 3 =
      { config := {}, daily_pnl := -120, trades_today := 4, daily_start := 3,
        kill_switch_triggered := true } ∧
    RiskManager.reset_day
      (RiskManager.reset_day
        { config := {}, daily_pnl := -120, trades_today := 4, daily_start := 3,
          kill_switch_triggered := true } 4) 4 =
      RiskManager.reset_day
        { config := {}, daily_pnl := -120, trades_today := 4, daily_start := 3,
          kill_switch_triggered := true } 4 ∧
    RiskManager.reset_day
      { config := {}, daily_pnl := -120, trades_today := 4, daily_start := 3,
        kill_switch_triggered := true } 4 =
      { config := {}, daily_pnl := 0, trades_today := 0, daily_start := 4,
        kill_switch_triggered := false } :=
  ⟨(C7_reset_day_once _ 3).1 (by norm_num),
   (C7_reset_day_once
      { config := {}, daily_pnl := -120, trades_today := 4, daily_start := 3,
        kill_switch_triggered := true } 4).2.1,
   (C7_reset_day_once _ 4).2.2 (by norm_num)⟩

/-- C6 counterexample: the claim's formula with risk multiple 1 gives 20585
at the spec scenario, but `RiskManager.calculate_target` returns 20625 there
(its multiple is hardwired to 2), so the claim is false of that function. -/
theorem C6_calculate_target_counterexample :
    RiskManager.calculate_target 20545 "Buy" 20505 none = 20625 ∧
    (20545 : ℚ) + 1 * |(20545 : ℚ) - 20505| = 20585 ∧
    (decide ((20625 : ℚ) = 20585)) = false := by
  refine ⟨?_, by norm_num, by decide⟩
  simp [RiskManager.calculate_target]
  norm_num

/-- C6 amended: the strategy's `calculate_target` uses risk multiple 1
(`entry ± |entry − stop|`, giving 20585 at the spec scenario), while
`RiskManager.calculate_target` uses a hardwired multiple of 2
(`entry ± 2 × risk`, with `risk` defaulting to `|entry − stop|`). -/
theorem C6_calculate_target_spec (entry stop : ℚ) (direction : String) :
    (Momentum30pt.calculate_target entry stop direction =
      if direction = "Buy" then entry + |entry - stop|
      else entry - |entry - stop|) ∧
    (RiskManager.calculate_target entry direction stop none =
      if direction = "Buy" then entry + |entry - stop| * 2
      else entry - |entry - stop| * 2) ∧
    (∀ r, RiskManager.calculate_target entry direction stop (some r) =
      if direction = "Buy" then entry + r * 2 else entry - r * 2) ∧
    Momentum30pt.calculate_target 20545 20505 "Buy" = 20585 := by
  refine ⟨?_, ?_, fun r => ?_, ?_⟩
  · simp [Momentum30pt.calculate_target]
  · simp [RiskManager.calculate_target]
  · simp [RiskManager.calculate_target]
  · simp [Momentum30pt.calculate_target]
    norm_num

/-- C9 counterexample: at entry 100, ATR 1, the ATR-based Sell stop is 102 —
above the entry, on the same side as the fixed-points Sell stop 130 — so the
claimed sign inversion (stop below entry) is false. -/
theorem C9_calculate_stop_counterexample :
    RiskManager.calculate_stop 100 "Sell" (some 1) = 102 ∧
    RiskManager.calculate_stop 100 "Sell" none = 130 ∧
    (100 : ℚ) ≤ RiskManager.calculate_stop 100 "Sell" (some 1) := by
  refine ⟨?_, ?_, ?_⟩ <;>
    simp [RiskManager.calculate_stop, pyNumTruthy] <;> norm_num

/-- C9 amended: for every entry and every atr > 0, the ATR-based branch
agrees in side with the fixed-points branch for both directions — the Sell
stop is `entry + 2·atr`, above the entry like the fixed `entry + 30`, and the
Buy stop is `entry − 2·atr`, below the entry like the fixed `entry − 30`;
nothing is sign-inverted. -/
theorem C9_calculate_stop_sides (entry atr : ℚ) (hatr : atr > 0) :
    RiskManager.calculate_stop entry "Sell" (some atr) = entry + atr * 2 ∧
    entry < RiskManager.calculate_stop entry "Sell" (some atr) ∧
    RiskManager.calculate_stop entry "Sell" none = entry + 30 ∧
    entry < RiskManager.calculate_stop entry "Sell" none ∧
    RiskManager.calculate_stop entry "Buy" (some atr) = entry - atr * 2 ∧
    RiskManager.calculate_stop entry "Buy" (some atr) < entry ∧
    RiskManager.calculate_stop entry "Buy" none = entry - 30 ∧
    RiskManager.calculate_stop entry "Buy" none < entry := by
  have hne : atr ≠ 0 := ne_of_gt hatr
  have h2 : atr * 2 ≠ 0 := by positivity
  refine ⟨?_, ?_, ?_, ?_, ?_, ?_, ?_, ?_⟩ <;>
    simp [RiskManager.calculate_stop, pyNumTruthy, hne, h2] <;> linarith

/-- C9 witness: the amended statement at entry 100, atr 1. -/
theorem C9_calculate_stop_sides_witness :
    RiskManager.calculate_stop 100 "Sell" (some 1) = 100 + 1 * 2 ∧
    RiskManager.calculate_stop 100 "Buy" (some 1) = 100 - 1 * 2 :=
  ⟨(C9_calculate_stop_sides 100 1 (by norm_num)).1,
   (C9_calculate_stop_sides 100 1 (by norm_num)).2.2.2.2.1⟩

/-- C2 (code bug): `_execute_signal` reads `self.position`, an attribute the
class never assigns, so for every signal — whatever the tracked position and
risk state — the call raises `AttributeError` before the guardrail can reject
or the risk check can run; in particular it does so at the spec scenario
signal with no open position. -/
theorem C2_execute_signal_attribute_error :
    MNQTradingBot.assigned_attrs.contains "position" = false ∧
    (∀ (pos : Option Position) (risk_st : RiskState) (sig : MomentumSignal),
      MNQTradingBot.execute_signal MNQTradingBot.assigned_attrs pos risk_st sig
        = .error
          "AttributeError: MNQTradingBot object has no attribute position") ∧
    MNQTradingBot.execute_signal MNQTradingBot.assigned_attrs none
        (RiskManager.init {} 0)
        { direction := "Buy", entry_price := 20545, stop_price := 20505,
          breakout_candle := ⟨20535, 20545, 20505, 20545, 1100, 10⟩,
          prior_candle := ⟨20500, 20520, 20490, 20510, 1000, 0⟩,
          move_points := 35, risk_points := 40, timestamp := 10 }
      = .error
          "AttributeError: MNQTradingBot object has no attribute position" := by
  refine ⟨by decide, fun pos risk_st sig => ?_, rfl⟩
  rfl

/-- C5 (code bug): `flatten_all` requests a cancel for every order of the
broker's list — `get_orders` ignores its status argument — so an order whose
status is "Filled" is cancelled too, against the claim that only Working
orders are. -/
theorem C5_flatten_all_ignores_status :
    OrderManager.flatten_all [⟨77, "Filled"⟩] = [77] ∧
    (⟨77, "Filled"⟩ : OrderManager.BrokerOrder).status = "Filled" ∧
    ((⟨77, "Filled"⟩ : OrderManager.BrokerOrder).status == "Working") = false ∧
    (∀ l : List OrderManager.BrokerOrder,
      OrderManager.flatten_all l = l.map fun o => o.orderId) ∧
    (∀ l : List OrderManager.BrokerOrder, ∀ status : String,
      OrderManager.get_orders status l = l) :=
  ⟨rfl, rfl, by decide, fun _ => rfl, fun _ _ => rfl⟩

/-- C8: `renew_token` falls back to a full `authenticate()` attempt and
returns its result whenever there is no (truthy) access token, the renewal
request returns a non-200 status, or the request raises; the `auto_renew`
background task attempts a renewal exactly when a creation time is recorded
and the token age has reached the 75-minute threshold. -/
theorem C8_renew_token_fallback (st : AuthState)
    (resp : TradovateAuth.RenewResponse) (now : ℚ)
    (auth_result : Bool × AuthState) :
    (pyStrTruthy st.access_token = false →
      TradovateAuth.renew_token st resp now auth_result = auth_result) ∧
    (∀ s, TradovateAuth.renew_token st (.errStatus s) now auth_result
      = auth_result) ∧
    (TradovateAuth.renew_token st .raised now auth_result = auth_result) ∧
    (TradovateAuth.auto_renew_attempts st now = true ↔
      ∃ created, st.token_created = some created ∧
        TradovateAuth.renew_threshold ≤ now - created) := by
  refine ⟨?_, ?_, ?_, ?_⟩
  · intro h
    simp [TradovateAuth.renew_token, h]
  · intro s
    unfold TradovateAuth.renew_token
    split_ifs <;> rfl
  · unfold TradovateAuth.renew_token
    split_ifs <;> rfl
  · cases htc : st.token_created with
    | none => simp [TradovateAuth.auto_renew_attempts, htc]
    | some created =>
        simp [TradovateAuth.auto_renew_attempts, htc, ge_iff_le]

/-- C8 witness: with no access token a raising renewal returns the
re-authentication result unchanged, and the background task fires at exactly
75 minutes of token age. -/
theorem C8_renew_token_fallback_witness :
    TradovateAuth.renew_token ⟨none, some 0⟩ .raised 80 (false, ⟨none, none⟩)
      = (false, ⟨none, none⟩) ∧
    TradovateAuth.auto_renew_attempts ⟨some "tok", some 5⟩ 80 = true :=
  ⟨(C8_renew_token_fallback ⟨none, some 0⟩ .raised 80 (false, ⟨none, none⟩)).1
      rfl,
   (C8_renew_token_fallback ⟨some "tok", some 5⟩ .raised 80
      (false, ⟨none, none⟩)).2.2.2.mpr
      ⟨5, rfl, by norm_num [TradovateAuth.renew_threshold]⟩⟩

/-- C10: the request body of `place_order` carries a `price` key iff the
given price is non-None and nonzero and the order type is Limit or StopLimit,
and a `stopPrice` key iff the given stop price is non-None and nonzero and
the order type is Stop or StopLimit; a Limit order with price 0, a Stop order
with stop price 0, and a Market order with any price are all sent without the
corresponding key. -/
theorem C10_place_order_body_fields (aS : String) (aI : ℤ) (sym act : String)
    (qty : ℤ) (ot : String) (price stop_price : Option ℚ) (tif : String) :
    ((OrderManager.place_order_body aS aI sym act qty ot price stop_price
        tif).price.isSome
      = (pyNumTruthy price && (ot == "Limit" || ot == "StopLimit"))) ∧
    ((OrderManager.place_order_body aS aI sym act qty ot price stop_price
        tif).stopPrice.isSome
      = (pyNumTruthy stop_price && (ot == "Stop" || ot == "StopLimit"))) ∧
    (OrderManager.place_order_body aS aI sym act qty "Limit" (some 0)
        stop_price tif).price = none ∧
    (OrderManager.place_order_body aS aI sym act qty "Stop" price (some 0)
        tif).stopPrice = none ∧
    (OrderManager.place_order_body aS aI sym act qty "Market" price stop_price
        tif).price = none := by
  have key : ∀ (t : String) (pr : Option ℚ) (t1 t2 : String),
      (if pyNumTruthy pr ∧ (t = t1 ∨ t = t2) then pr else none).isSome =
        (pyNumTruthy pr && (t == t1 || t == t2)) := by
    intro t pr t1 t2
    by_cases h : pyNumTruthy pr ∧ (t = t1 ∨ t = t2)
    · rw [if_pos h]
      obtain ⟨h1, h2⟩ := h
      cases pr with
      | none => simp [pyNumTruthy] at h1
      | some p => rcases h2 with h2 | h2 <;> simp [h1, h2]
    · rw [if_neg h]
      by_cases hp : pyNumTruthy pr = true
      · have h2 : ¬(t = t1 ∨ t = t2) := fun hor => h ⟨hp, hor⟩
        push_neg at h2
        simp [hp, h2.1, h2.2]
      · rw [Bool.not_eq_true] at hp
        simp [hp]
  refine ⟨?_, ?_, ?_, ?_, ?_⟩
  · simp only [OrderManager.place_order_body]
    exact key ot price "Limit" "StopLimit"
  · simp only [OrderManager.place_order_body]
    exact key ot stop_price "Stop" "StopLimit"
  · simp [OrderManager.place_order_body, pyNumTruthy]
  · simp [OrderManager.place_order_body, pyNumTruthy]
  · simp [OrderManager.place_order_body]


